import Mathlib

/-!
Verification of the CLBlast `Routine` compilation-and-cache pipeline
(`src/routine.cpp`, the `Routine::Routine` constructor) against its
natural-language specification.

The pipeline is embedded shallowly: the constructor becomes the pure
function `acquire`, which consults an explicit cache state, calls an
external compiler backend given as an oracle, and returns its outcome
together with a trace of the externally observable events (backend
calls and cache stores).  The final cache state is obtained by
replaying the trace.

Collaborators whose code is not part of the given sources (the OpenCL
wrapper `clpp11.h`, the cache store `cache.cpp`, the tuning database,
and the constants of `utilities.hpp`) are modelled from the
specification; each such definition carries a doc comment saying so.
-/

namespace CLBlast

/-- Modelled from the spec: `Precision` is "enumerated
. Single, Double, ComplexSingle, ComplexDouble, Half ." (§3).  The enum
itself lives in `clblast.h`, which is not among the given sources. -/
inductive Precision where
  | Single
  | Double
  | ComplexSingle
  | ComplexDouble
  | Half
  deriving DecidableEq, Repr

/-- Modelled from the spec: the numeric value produced by
`static_cast<int>(precision_)` in the source comes from the enum
declaration in `clblast.h`, outside the given sources; the spec calls it
"the precision's ordinal", so we take the position in the spec's
enumeration. -/
def Precision.ordinal : Precision → Nat
  | .Single => 0
  | .Double => 1
  | .ComplexSingle => 2
  | .ComplexDouble => 3
  | .Half => 4

/-- The device abstraction used by `routine.cpp`: a name (the cache key
for binaries), the capabilities/extension string queried by
`device_.Capabilities()`, and the vendor/type predicates `IsAMD()`,
`IsARM()`, `IsGPU()`.  The implementation behind these accessors
(`clpp11.h`) is outside the given sources, so a device is a record of
their results. -/
structure Device where
  name : String
  capabilities : String
  isAMD : Bool
  isARM : Bool
  isGPU : Bool
  deriving DecidableEq, Repr

/-- Substring test on character lists, used to model
`std::string::find(tok) != std::string::npos`. -/
def hasSubstr (needle : List Char) : List Char → Bool
  | [] => needle.isEmpty
  | c :: rest => needle.isPrefixOf (c :: rest) || hasSubstr needle rest

/-- `extensions.find(tok) != std::string::npos` from the source: the
token occurs somewhere in the capabilities string. -/
def containsToken (extensions tok : String) : Bool :=
  hasSubstr tok.data extensions.data

/-- Modelled from the spec: "the double-precision extension token"
(§4.1); the constant `kKhronosDoublePrecision` is declared in
`utilities.hpp`, outside the given sources. -/
def kKhronosDoublePrecision : String := "cl_khr_fp64"

/-- Modelled from the spec: "the half-precision extension token" (§4.1);
the constant `kKhronosHalfPrecision` is declared in `utilities.hpp`,
outside the given sources. -/
def kKhronosHalfPrecision : String := "cl_khr_fp16"

/-- The errors `Routine::Routine` can signal, in the spec's taxonomy
(§7): `noDoublePrecision`/`noHalfPrecision` are the two
`UnsupportedPrecision` status codes thrown by the capability check
(`StatusCode::kNoDoublePrecision` / `kNoHalfPrecision`), and
compile/build errors carry the diagnostic log. -/
inductive RErr where
  | noDoublePrecision
  | noHalfPrecision
  | compileError (log : String)
  | buildError (log : String)
  deriving DecidableEq, Repr

/-- Whether an error belongs to the spec's `UnsupportedPrecision`
category (§7). -/
def RErr.isUnsupportedPrecision : RErr → Bool
  | .noDoublePrecision => true
  | .noHalfPrecision => true
  | _ => false

/-- The capability check of `routine.cpp` lines 60-73: throw
`kNoDoublePrecision` when precision is Double or ComplexDouble and the
capabilities string lacks the fp64 token; otherwise throw
`kNoHalfPrecision` when precision is Half and the capabilities string
lacks the fp16 token; otherwise pass. -/
def capabilityCheck (p : Precision) (extensions : String) : Option RErr :=
  if (p = .Double || p = .ComplexDouble) && !containsToken extensions kKhronosDoublePrecision then
    some .noDoublePrecision
  else if (p = .Half) && !containsToken extensions kKhronosHalfPrecision then
    some .noHalfPrecision
  else
    none

/-- The define emitted at line 77:
`"#define PRECISION "+ToString(static_cast<int>(precision_))+"\n"`. -/
def precisionDefine (p : Precision) : String :=
  "#define PRECISION " ++ toString p.ordinal ++ "\n"

/-- The define emitted at line 80: `"#define ROUTINE_"+routine_name_+"\n"`. -/
def routineDefine (name : String) : String :=
  "#define ROUTINE_" ++ name ++ "\n"

/-- The quirk define emitted at line 85 for AMD GPUs. -/
def madDefine : String := "#define USE_CL_MAD 1\n"

/-- The quirk define emitted at line 90 for AMD GPUs. -/
def staggeredDefine : String := "#define USE_STAGGERED_INDICES 1\n"

/-- The quirk define emitted at line 96 for ARM GPUs. -/
def fenceDefine : String := "#define GLOBAL_MEM_FENCE 1\n"

/-- Source assembly, `routine.cpp` lines 76-107: start from the tuning
database defines (`db_.GetDefines()`, passed in as `dbDefines` since the
database is an external collaborator), append the precision define, the
routine-name define, the three conditional quirk defines (two separate
`if` statements share the AMD-GPU condition, as in the source), the
common header (the `kernels/common.opencl` static asset, passed in as
`commonHeader`), and finally each routine fragment in order. -/
def assembleSource (dbDefines : String) (p : Precision) (name : String) (dev : Device)
    (commonHeader : String) (fragments : List String) : String :=
  let s := dbDefines
  let s := s ++ precisionDefine p
  let s := s ++ routineDefine name
  let s := if dev.isAMD && dev.isGPU then s ++ madDefine else s
  let s := if dev.isAMD && dev.isGPU then s ++ staggeredDefine else s
  let s := if dev.isARM && dev.isGPU then s ++ fenceDefine else s
  let s := s ++ commonHeader
  fragments.foldl (· ++ ·) s

/-- The spec-side decomposition of the assembled source (§4.2): the list
of chunks that are concatenated, "in fixed order": database defines,
precision define, routine define, the conditional quirk defines, the
common header, the fragments.  Used to compare `assembleSource` against
the specification's description of the concatenation. -/
def assembleParts (dbDefines : String) (p : Precision) (name : String) (dev : Device)
    (commonHeader : String) (fragments : List String) : List String :=
  [dbDefines, precisionDefine p, routineDefine name]
    ++ (if dev.isAMD && dev.isGPU then [madDefine] else [])
    ++ (if dev.isAMD && dev.isGPU then [staggeredDefine] else [])
    ++ (if dev.isARM && dev.isGPU then [fenceDefine] else [])
    ++ [commonHeader] ++ fragments

/-- A compiled intermediate representation (the blob returned by
`program.GetIR()`), kept abstract as a string. -/
abbrev Binary := String

/-- A built program handle, as produced by the backend; abstract. -/
abbrev Program := Nat

/-- The device-scoped cache key: (device name, precision, routine name),
as used by `StoreBinaryToCache`/`BinaryIsInCache`. -/
structure BinaryKey where
  deviceName : String
  precision : Precision
  routineName : String
  deriving DecidableEq, Repr

/-- The context-scoped cache key: (context, precision, routine name), as
used by `StoreProgramToCache`/`ProgramIsInCache`; contexts are
identified by an opaque id. -/
structure ProgramKey where
  contextId : Nat
  precision : Precision
  routineName : String
  deriving DecidableEq, Repr

/-- Lookup in an association-list cache: first stored entry for a key
wins. -/
def cacheLookup {κ β : Type} [DecidableEq κ] (k : κ) : List (κ × β) → Option β
  | [] => none
  | (k', v) :: rest => if k' = k then some v else cacheLookup k rest

/-- Modelled from the spec: the two caches are "write-once/read-many
associative stores" with `storeIfAbsent` — "first successful compile for
a key wins" (§4.3); the cache implementation (`cache.cpp`) is not among
the given sources. -/
def storeIfAbsent {κ β : Type} [DecidableEq κ] (k : κ) (v : β) (c : List (κ × β)) :
    List (κ × β) :=
  match cacheLookup k c with
  | some _ => c
  | none => (k, v) :: c

/-- The two process-wide caches of `cache.cpp`: binaries keyed by
(device, precision, routine), programs keyed by (context, precision,
routine). -/
structure CacheState where
  binaries : List (BinaryKey × Binary)
  programs : List (ProgramKey × Program)
  deriving DecidableEq

/-- Modelled from the spec: the GPU compute backend (§6) exposes
`compileToIR(source) -> IR | CompileError(log)` and
`buildProgram(device, IR|source, buildOptions) -> Program |
BuildError(log)`.  In the source these are the `Program` constructors
and `Program::Build` of `clpp11.h`, which is outside the given sources;
`buildFromBinary` models `Program(device, context, binary)` followed by
`Build`, and `buildFromIR` the per-context build of a freshly compiled
IR.  An `Except.error` value is the diagnostic log. -/
structure Backend where
  compileToIR : String → Except String Binary
  buildFromBinary : Device → Binary → List String → Except String Program
  buildFromIR : Device → Binary → List String → Except String Program

/-- The externally observable events of one `Routine::Routine` run, in
order: reading the `CLBLAST_BUILD_OPTIONS` environment variable,
running the capability check, assembling the source, the backend
compile and build calls, and the two cache stores. -/
inductive Event where
  | resolveOptions
  | gateCheck
  | assembleCall
  | compileCall
  | buildCall
  | storeBinary (k : BinaryKey) (b : Binary)
  | storeProgram (k : ProgramKey) (p : Program)
  deriving DecidableEq, Repr

/-- Effect of one event on the caches: only the two store events mutate
state. -/
def applyEvent (st : CacheState) : Event → CacheState
  | .storeBinary k b => { st with binaries := storeIfAbsent k b st.binaries }
  | .storeProgram k p => { st with programs := storeIfAbsent k p st.programs }
  | _ => st

/-- Replay a trace of events on an initial cache state. -/
def replay (st : CacheState) (tr : List Event) : CacheState :=
  tr.foldl applyEvent st

/-- The inputs of one `Routine::Routine` call: the context (opaque id)
and device behind the queue, the routine name and precision, the texts
supplied by the external collaborators (tuning-database defines, common
header, routine fragments), and the optional `CLBLAST_BUILD_OPTIONS`
environment value. -/
structure AcquireInput where
  contextId : Nat
  device : Device
  precision : Precision
  routineName : String
  dbDefines : String
  commonHeader : String
  fragments : List String
  envOptions : Option String

/-- Build-options resolution, `routine.cpp` lines 42-46: an empty list,
plus the single environment string when it is set. -/
def resolveOptions (env : Option String) : List String :=
  match env with
  | some s => [s]
  | none => []

/-- The source text a request assembles on the cold path. -/
def AcquireInput.source (inp : AcquireInput) : String :=
  assembleSource inp.dbDefines inp.precision inp.routineName inp.device
    inp.commonHeader inp.fragments

/-- The program-cache key of a request. -/
def AcquireInput.pkey (inp : AcquireInput) : ProgramKey :=
  ⟨inp.contextId, inp.precision, inp.routineName⟩

/-- The binary-cache key of a request. -/
def AcquireInput.bkey (inp : AcquireInput) : BinaryKey :=
  ⟨inp.device.name, inp.precision, inp.routineName⟩

/-- Outcome of one run: the error thrown or the program built, plus the
trace of observable events.  The caches after the run are obtained by
replaying the trace. -/
structure AcquireResult where
  outcome : Except RErr Program
  trace : List Event

/-- The tail of `Routine::Routine` from line 60 on (capability check,
source assembly, compile, build, the two stores), reached either on a
binary-cache miss or — because the binary-hit branch at lines 50-55 does
not return — after a successful build from a cached binary.  `tr` is
the trace accumulated so far. -/
def coldPath (be : Backend) (inp : AcquireInput) (options : List String)
    (tr : List Event) : AcquireResult :=
  match capabilityCheck inp.precision inp.device.capabilities with
  | some e => ⟨.error e, tr ++ [.gateCheck]⟩
  | none =>
    match be.compileToIR inp.source with
    | .error log => ⟨.error (.compileError log), tr ++ [.gateCheck, .assembleCall, .compileCall]⟩
    | .ok ir =>
      match be.buildFromIR inp.device ir options with
      | .error log =>
        ⟨.error (.buildError log), tr ++ [.gateCheck, .assembleCall, .compileCall, .buildCall]⟩
      | .ok prog =>
        ⟨.ok prog, tr ++ [.gateCheck, .assembleCall, .compileCall, .buildCall,
          .storeBinary inp.bkey ir, .storeProgram inp.pkey prog]⟩

/-- The whole `Routine::Routine` constructor as one request
(`acquire` in the spec's vocabulary): return a cached program
immediately when the program cache hits (line 39); otherwise resolve the
build options (lines 42-46), and when the binary cache hits, build from
the cached binary and store the program (lines 50-55) — on build
failure the error propagates; on success control FALLS THROUGH to the
cold path, exactly as in the source, which has no return statement in
that branch — and otherwise run the cold path directly. -/
def acquire (be : Backend) (st : CacheState) (inp : AcquireInput) : AcquireResult :=
  match cacheLookup inp.pkey st.programs with
  | some prog => ⟨.ok prog, []⟩
  | none =>
    let options := resolveOptions inp.envOptions
    match cacheLookup inp.bkey st.binaries with
    | some binary =>
      match be.buildFromBinary inp.device binary options with
      | .error log => ⟨.error (.buildError log), [.resolveOptions, .buildCall]⟩
      | .ok prog =>
        coldPath be inp options
          [.resolveOptions, .buildCall, .storeProgram inp.pkey prog]
    | none => coldPath be inp options [.resolveOptions]

/-- The caches after one run. -/
def acquireState (be : Backend) (st : CacheState) (inp : AcquireInput) : CacheState :=
  replay st (acquire be st inp).trace

/-- A quirk-free GPU used in the concrete scenarios (spec §8, Scenario A). -/
def demoDevice : Device := ⟨"GenericGPU", "", false, false, true⟩

/-- A backend whose compile and build calls always succeed: compiling
yields the IR blob "ir0", a build from a cached binary yields program 7,
a build from a fresh IR yields program 8. -/
def demoBackend : Backend :=
  ⟨fun _ => .ok "ir0", fun _ _ _ => .ok 7, fun _ _ _ => .ok 8⟩

/-- A backend whose per-context build calls fail with a diagnostic log. -/
def buildFailBackend : Backend :=
  ⟨fun _ => .ok "ir0", fun _ _ _ => .error "build log", fun _ _ _ => .error "build log"⟩

/-- A backend whose source compile fails with a diagnostic log. -/
def compileFailBackend : Backend :=
  ⟨fun _ => .error "compile log", fun _ _ _ => .ok 7, fun _ _ _ => .ok 8⟩

/-- Both caches empty. -/
def emptyState : CacheState := ⟨[], []⟩

/-- Scenario A: a Single-precision Xgemm request on the quirk-free GPU. -/
def demoInput : AcquireInput := ⟨0, demoDevice, .Single, "Xgemm", "", "HDR", ["frag"], none⟩

/-- The caches after a successful cold acquire of `demoInput`. -/
def demoColdState : CacheState := acquireState demoBackend emptyState demoInput

/-- The same request issued from a second context on the same device. -/
def demoSecondCtx : AcquireInput := { demoInput with contextId := 1 }

/-- Scenario B: a Double-precision request on a device whose
capabilities string lacks the fp64 token. -/
def gateDemoInput : AcquireInput := ⟨0, demoDevice, .Double, "Xgemm", "", "HDR", [], none⟩

/-- Whether a run failed with one of the `UnsupportedPrecision` errors. -/
def outcomeUnsupported (r : AcquireResult) : Bool :=
  match r.outcome with
  | .error e => e.isUnsupportedPrecision
  | .ok _ => false

theorem cacheLookup_storeIfAbsent_self {κ β : Type} [DecidableEq κ] (k : κ) (v : β)
    (c : List (κ × β)) (h : cacheLookup k c = none) :
    cacheLookup k (storeIfAbsent k v c) = some v := by
  simp [storeIfAbsent, h, cacheLookup]

theorem capabilityCheck_some_unsupported (p : Precision) (ext : String) (e : RErr)
    (h : capabilityCheck p ext = some e) : e.isUnsupportedPrecision = true := by
  unfold capabilityCheck at h
  split at h
  · cases h; rfl
  · split at h
    · cases h; rfl
    · cases h

theorem capabilityCheck_isSome_iff (p : Precision) (ext : String) :
    (capabilityCheck p ext).isSome = true ↔
      ((p = .Double ∨ p = .ComplexDouble) ∧
        containsToken ext kKhronosDoublePrecision = false) ∨
      (p = .Half ∧ containsToken ext kKhronosHalfPrecision = false) := by
  cases p <;> cases hd : containsToken ext kKhronosDoublePrecision <;>
    cases hh : containsToken ext kKhronosHalfPrecision <;>
      simp [capabilityCheck, hd, hh]

theorem routineDefine_data (name : String) :
    (routineDefine name).data =
      ['#', 'd', 'e', 'f', 'i', 'n', 'e', ' ', 'R', 'O', 'U', 'T', 'I', 'N', 'E', '_']
        ++ (name.data ++ ['\n']) := rfl

theorem madDefine_ne_precision (p : Precision) : madDefine ≠ precisionDefine p := by
  cases p <;> decide

theorem staggeredDefine_ne_precision (p : Precision) : staggeredDefine ≠ precisionDefine p := by
  cases p <;> decide

theorem fenceDefine_ne_precision (p : Precision) : fenceDefine ≠ precisionDefine p := by
  cases p <;> decide

theorem madDefine_ne_routine (name : String) : madDefine ≠ routineDefine name := by
  intro h
  have h2 := congrArg String.data h.symm
  rw [routineDefine_data] at h2
  simp [madDefine] at h2

theorem staggeredDefine_ne_routine (name : String) : staggeredDefine ≠ routineDefine name := by
  intro h
  have h2 := congrArg String.data h.symm
  rw [routineDefine_data] at h2
  simp [staggeredDefine] at h2

theorem fenceDefine_ne_routine (name : String) : fenceDefine ≠ routineDefine name := by
  intro h
  have h2 := congrArg String.data h.symm
  rw [routineDefine_data] at h2
  simp [fenceDefine] at h2

theorem madDefine_ne_staggered : madDefine ≠ staggeredDefine := by decide

theorem madDefine_ne_fence : madDefine ≠ fenceDefine := by decide

theorem staggeredDefine_ne_mad : staggeredDefine ≠ madDefine := by decide

theorem staggeredDefine_ne_fence : staggeredDefine ≠ fenceDefine := by decide

theorem fenceDefine_ne_mad : fenceDefine ≠ madDefine := by decide

theorem fenceDefine_ne_staggered : fenceDefine ≠ staggeredDefine := by decide

theorem assembleSource_eq_join (db : String) (p : Precision) (name : String) (dev : Device)
    (header : String) (frags : List String) :
    assembleSource db p name dev header frags =
      String.join (assembleParts db p name dev header frags) := by
  cases hA : dev.isAMD && dev.isGPU <;> cases hR : dev.isARM && dev.isGPU <;>
    simp only [assembleSource, assembleParts, hA, hR, if_true, if_false,
      Bool.false_eq_true, Bool.true_eq_false, ite_true, ite_false] <;> rfl

/-- C1: the claim expects a binary-cache hit with a successful
per-context build to perform one build call and zero compile calls.
The source's binary-hit branch (lines 50-55) has no return statement, so
after building from the cached binary and storing the program it falls
through to the full cold compile: acquiring an already-compiled routine
from a second context on the same device performs one compile call and
two build calls, refuting the claim at this concrete input. -/
theorem binary_hit_falls_through_to_compile :
    (acquire demoBackend demoColdState demoSecondCtx).trace.count .compileCall = 1 ∧
      (acquire demoBackend demoColdState demoSecondCtx).trace.count .buildCall = 2 ∧
      cacheLookup demoSecondCtx.pkey demoColdState.programs = none ∧
      cacheLookup demoSecondCtx.bkey demoColdState.binaries = some "ir0" := by
  decide

/-- C3: when the program cache misses, the binary cache hits, and the
per-context build from the cached binary fails, `acquire` fails with
`BuildError` carrying the diagnostic log, the caches are left completely
unchanged, and in particular the existing binary entry is still there
for later requests. -/
theorem binary_build_failure_preserves_binary (be : Backend) (st : CacheState)
    (inp : AcquireInput) (binary : Binary) (log : String)
    (hp : cacheLookup inp.pkey st.programs = none)
    (hb : cacheLookup inp.bkey st.binaries = some binary)
    (hbuild : be.buildFromBinary inp.device binary (resolveOptions inp.envOptions) =
      .error log) :
    (acquire be st inp).outcome = .error (.buildError log) ∧
      acquireState be st inp = st ∧
      cacheLookup inp.bkey (acquireState be st inp).binaries = some binary := by
  have h : acquire be st inp = ⟨.error (.buildError log), [.resolveOptions, .buildCall]⟩ := by
    simp [acquire, hp, hb, hbuild]
  have hst : acquireState be st inp = st := by
    simp [acquireState, h, replay, applyEvent]
  exact ⟨by rw [h], hst, by rw [hst]; exact hb⟩

/-- Witness for C3: a concrete binary-hit request whose build fails. -/
theorem binary_build_failure_preserves_binary_witness :
    (acquire buildFailBackend demoColdState demoSecondCtx).outcome =
        .error (.buildError "build log") ∧
      acquireState buildFailBackend demoColdState demoSecondCtx = demoColdState ∧
      cacheLookup demoSecondCtx.bkey
        (acquireState buildFailBackend demoColdState demoSecondCtx).binaries = some "ir0" :=
  binary_build_failure_preserves_binary buildFailBackend demoColdState demoSecondCtx
    "ir0" "build log" rfl rfl rfl

/-- C5: a cold-path request (both caches miss) rejected by the
capability gate fails with an `UnsupportedPrecision` error; the event
trace stops at the gate (no assembly, no compile, no build, no store),
so the caches are unchanged. -/
theorem gate_rejection_leaves_caches_untouched (be : Backend) (st : CacheState)
    (inp : AcquireInput) (e : RErr)
    (hp : cacheLookup inp.pkey st.programs = none)
    (hb : cacheLookup inp.bkey st.binaries = none)
    (hg : capabilityCheck inp.precision inp.device.capabilities = some e) :
    (acquire be st inp).outcome = .error e ∧
      e.isUnsupportedPrecision = true ∧
      (acquire be st inp).trace = [.resolveOptions, .gateCheck] ∧
      (acquire be st inp).trace.count .assembleCall = 0 ∧
      (acquire be st inp).trace.count .compileCall = 0 ∧
      (acquire be st inp).trace.count .buildCall = 0 ∧
      acquireState be st inp = st := by
  have h : acquire be st inp = ⟨.error e, [.resolveOptions, .gateCheck]⟩ := by
    simp [acquire, hp, hb, coldPath, hg]
  refine ⟨by rw [h], capabilityCheck_some_unsupported _ _ _ hg, by rw [h], ?_, ?_, ?_, ?_⟩
  · rw [h]; rfl
  · rw [h]; rfl
  · rw [h]; rfl
  · simp [acquireState, h, replay, applyEvent]

/-- Witness for C5: Scenario B, a Double-precision request on a device
without the fp64 token, on empty caches. -/
theorem gate_rejection_leaves_caches_untouched_witness :
    (acquire demoBackend emptyState gateDemoInput).outcome = .error .noDoublePrecision ∧
      RErr.isUnsupportedPrecision .noDoublePrecision = true ∧
      (acquire demoBackend emptyState gateDemoInput).trace = [.resolveOptions, .gateCheck] ∧
      (acquire demoBackend emptyState gateDemoInput).trace.count .assembleCall = 0 ∧
      (acquire demoBackend emptyState gateDemoInput).trace.count .compileCall = 0 ∧
      (acquire demoBackend emptyState gateDemoInput).trace.count .buildCall = 0 ∧
      acquireState demoBackend emptyState gateDemoInput = emptyState :=
  gate_rejection_leaves_caches_untouched demoBackend emptyState gateDemoInput
    .noDoublePrecision rfl rfl rfl

/-- C6: when the program cache holds an entry for (context, precision,
routineName), `acquire` returns exactly that entry with an empty event
trace — no options resolution, no capability check, no assembly, no
backend call, no store — and the caches are unchanged. -/
theorem program_hit_returns_immediately (be : Backend) (st : CacheState)
    (inp : AcquireInput) (prog : Program)
    (hp : cacheLookup inp.pkey st.programs = some prog) :
    acquire be st inp = ⟨.ok prog, []⟩ ∧ acquireState be st inp = st := by
  have h : acquire be st inp = ⟨.ok prog, []⟩ := by simp [acquire, hp]
  exact ⟨h, by simp [acquireState, h, replay]⟩

/-- Witness for C6: re-acquiring `demoInput` after its cold compile hits
the program cache. -/
theorem program_hit_returns_immediately_witness :
    acquire demoBackend demoColdState demoInput = ⟨.ok 8, []⟩ ∧
      acquireState demoBackend demoColdState demoInput = demoColdState :=
  program_hit_returns_immediately demoBackend demoColdState demoInput 8 rfl

/-- C7: the assembled source is exactly the concatenation, in order, of
the database defines, the precision define, the routine-name define, the
conditional quirk defines, the common header, and the routine fragments
in the order supplied (`assembleParts` lists those chunks following the
spec's enumeration). -/
theorem assembled_source_is_spec_concatenation (db : String) (p : Precision)
    (name : String) (dev : Device) (header : String) (frags : List String) :
    assembleSource db p name dev header frags =
      String.join (assembleParts db p name dev header frags) :=
  assembleSource_eq_join db p name dev header frags

/-- C9: source assembly is deterministic — two runs whose routine name,
precision, device quirk flags, database defines text, common header
text, and fragments agree produce byte-identical source. -/
theorem assembly_deterministic (db db2 : String) (p p2 : Precision)
    (name name2 : String) (dev dev2 : Device) (header header2 : String)
    (frags frags2 : List String)
    (hdb : db = db2) (hp : p = p2) (hname : name = name2)
    (hAMD : dev.isAMD = dev2.isAMD) (hARM : dev.isARM = dev2.isARM)
    (hGPU : dev.isGPU = dev2.isGPU)
    (hheader : header = header2) (hfrags : frags = frags2) :
    assembleSource db p name dev header frags =
      assembleSource db2 p2 name2 dev2 header2 frags2 := by
  subst hdb hp hname hheader hfrags
  simp only [assembleSource, hAMD, hARM, hGPU]

/-- Witness for C9: two devices that differ only in their name assemble
the same source. -/
theorem assembly_deterministic_witness :
    assembleSource "DB" .Single "Xgemm" ⟨"devA", "", true, false, true⟩ "HDR" ["f1", "f2"] =
      assembleSource "DB" .Single "Xgemm" ⟨"devB", "x", true, false, true⟩ "HDR" ["f1", "f2"] :=
  assembly_deterministic "DB" "DB" .Single .Single "Xgemm" "Xgemm"
    ⟨"devA", "", true, false, true⟩ ⟨"devB", "x", true, false, true⟩ "HDR" "HDR"
    ["f1", "f2"] ["f1", "f2"] rfl rfl rfl rfl rfl rfl rfl rfl

/-- C2: on a cold-path request (both caches miss), a `CompileError` or
`BuildError` leaves both caches without an entry for the request's keys,
and on success the compiled IR sits in the binary cache and the built
program in the program cache. -/
theorem cold_path_stores_only_on_success (be : Backend) (st : CacheState)
    (inp : AcquireInput)
    (hp : cacheLookup inp.pkey st.programs = none)
    (hb : cacheLookup inp.bkey st.binaries = none) :
    (∀ log,
      ((acquire be st inp).outcome = .error (.compileError log) ∨
        (acquire be st inp).outcome = .error (.buildError log)) →
      cacheLookup inp.bkey (acquireState be st inp).binaries = none ∧
      cacheLookup inp.pkey (acquireState be st inp).programs = none) ∧
    (∀ prog, (acquire be st inp).outcome = .ok prog →
      cacheLookup inp.bkey (acquireState be st inp).binaries =
        (be.compileToIR inp.source).toOption ∧
      cacheLookup inp.pkey (acquireState be st inp).programs = some prog) := by
  cases hg : capabilityCheck inp.precision inp.device.capabilities with
  | some e =>
    have h : acquire be st inp = ⟨.error e, [.resolveOptions, .gateCheck]⟩ := by
      simp [acquire, hp, hb, coldPath, hg]
    constructor
    · intro log _
      constructor <;> simp [acquireState, h, replay, applyEvent, hb, hp]
    · intro prog hok
      rw [h] at hok
      cases hok
  | none =>
    cases hc : be.compileToIR inp.source with
    | error log2 =>
      have h : acquire be st inp =
          ⟨.error (.compileError log2),
            [.resolveOptions, .gateCheck, .assembleCall, .compileCall]⟩ := by
        simp [acquire, hp, hb, coldPath, hg, hc]
      constructor
      · intro log _
        constructor <;> simp [acquireState, h, replay, applyEvent, hb, hp]
      · intro prog hok
        rw [h] at hok
        cases hok
    | ok ir =>
      cases hbd : be.buildFromIR inp.device ir (resolveOptions inp.envOptions) with
      | error log2 =>
        have h : acquire be st inp =
            ⟨.error (.buildError log2),
              [.resolveOptions, .gateCheck, .assembleCall, .compileCall, .buildCall]⟩ := by
          simp [acquire, hp, hb, coldPath, hg, hc, hbd]
        constructor
        · intro log _
          constructor <;> simp [acquireState, h, replay, applyEvent, hb, hp]
        · intro prog hok
          rw [h] at hok
          cases hok
      | ok prog2 =>
        have h : acquire be st inp =
            ⟨.ok prog2,
              [.resolveOptions, .gateCheck, .assembleCall, .compileCall, .buildCall,
                .storeBinary inp.bkey ir, .storeProgram inp.pkey prog2]⟩ := by
          simp [acquire, hp, hb, coldPath, hg, hc, hbd]
        constructor
        · intro log hlog
          rw [h] at hlog
          rcases hlog with h1 | h1 <;> cases h1
        · intro prog hok
          rw [h] at hok
          cases hok
          constructor
          · simp [acquireState, h, replay, applyEvent, Except.toOption,
              cacheLookup_storeIfAbsent_self _ _ _ hb]
          · simp [acquireState, h, replay, applyEvent,
              cacheLookup_storeIfAbsent_self _ _ _ hp]

/-- Witness for C2 (success half): the Scenario A cold compile stores
the IR and the program under the request's keys. -/
theorem cold_path_stores_only_on_success_witness :
    cacheLookup demoInput.bkey (acquireState demoBackend emptyState demoInput).binaries =
        some "ir0" ∧
      cacheLookup demoInput.pkey (acquireState demoBackend emptyState demoInput).programs =
        some 8 := by
  have h := (cold_path_stores_only_on_success demoBackend emptyState demoInput rfl rfl).2 8 rfl
  exact ⟨h.1.trans rfl, h.2⟩

theorem coldPath_unsupported (be : Backend) (inp : AcquireInput) (options : List String)
    (tr : List Event) :
    outcomeUnsupported (coldPath be inp options tr) =
      (capabilityCheck inp.precision inp.device.capabilities).isSome := by
  cases hg : capabilityCheck inp.precision inp.device.capabilities with
  | some e =>
    simp [coldPath, hg, outcomeUnsupported, capabilityCheck_some_unsupported _ _ _ hg]
  | none =>
    cases hc : be.compileToIR inp.source with
    | error log =>
      simp [coldPath, hg, hc, outcomeUnsupported, RErr.isUnsupportedPrecision]
    | ok ir =>
      cases hbd : be.buildFromIR inp.device ir options with
      | error log =>
        simp [coldPath, hg, hc, hbd, outcomeUnsupported, RErr.isUnsupportedPrecision]
      | ok prog =>
        simp [coldPath, hg, hc, hbd, outcomeUnsupported]

/-- C4: a request that reaches the capability check (its trace contains
the gate event) fails with an `UnsupportedPrecision` error exactly when
the device capabilities string lacks the fp64 token for
Double/ComplexDouble or the fp16 token for Half; a Single or
ComplexSingle request never fails that way. -/
theorem unsupported_precision_iff (be : Backend) (st : CacheState) (inp : AcquireInput)
    (hreach : .gateCheck ∈ (acquire be st inp).trace) :
    (outcomeUnsupported (acquire be st inp) = true ↔
      ((inp.precision = .Double ∨ inp.precision = .ComplexDouble) ∧
        containsToken inp.device.capabilities kKhronosDoublePrecision = false) ∨
      (inp.precision = .Half ∧
        containsToken inp.device.capabilities kKhronosHalfPrecision = false)) ∧
    ((inp.precision = .Single ∨ inp.precision = .ComplexSingle) →
      outcomeUnsupported (acquire be st inp) = false) := by
  have hiff : outcomeUnsupported (acquire be st inp) =
      (capabilityCheck inp.precision inp.device.capabilities).isSome := by
    cases hpc : cacheLookup inp.pkey st.programs with
    | some prog =>
      simp [acquire, hpc] at hreach
    | none =>
      cases hbc : cacheLookup inp.bkey st.binaries with
      | some binary =>
        cases hbd : be.buildFromBinary inp.device binary (resolveOptions inp.envOptions) with
        | error log =>
          simp [acquire, hpc, hbc, hbd] at hreach
        | ok prog =>
          have h : acquire be st inp = coldPath be inp (resolveOptions inp.envOptions)
              [.resolveOptions, .buildCall, .storeProgram inp.pkey prog] := by
            simp [acquire, hpc, hbc, hbd]
          rw [h, coldPath_unsupported]
      | none =>
        have h : acquire be st inp =
            coldPath be inp (resolveOptions inp.envOptions) [.resolveOptions] := by
          simp [acquire, hpc, hbc]
        rw [h, coldPath_unsupported]
  constructor
  · rw [hiff]
    exact capabilityCheck_isSome_iff inp.precision inp.device.capabilities
  · intro hsing
    rw [hiff]
    rcases hsing with h1 | h1 <;> rw [h1] <;> simp [capabilityCheck]

/-- Witness for C4: the Scenario B request reaches the gate and fails as
unsupported. -/
theorem unsupported_precision_iff_witness :
    outcomeUnsupported (acquire demoBackend emptyState gateDemoInput) = true :=
  (unsupported_precision_iff demoBackend emptyState gateDemoInput (by decide)).1.mpr
    (Or.inl ⟨Or.inl rfl, rfl⟩)

/-- C8: among the chunks concatenated into the assembled source, the
fast-multiply-add define and the staggered-indices define occur exactly
when the device is an AMD GPU, and the global-memory-fence define occurs
exactly when the device is an ARM GPU — provided the externally supplied
texts (database defines, common header, fragments) do not themselves
coincide with a quirk define; the structurally emitted defines can never
coincide with one (proved separately for every precision and routine
name). -/
theorem quirk_defines_iff_device_predicates (db : String) (p : Precision) (name : String)
    (dev : Device) (header : String) (frags : List String)
    (hm1 : madDefine ≠ db) (hm2 : madDefine ≠ header) (hm3 : madDefine ∉ frags)
    (hs1 : staggeredDefine ≠ db) (hs2 : staggeredDefine ≠ header)
    (hs3 : staggeredDefine ∉ frags)
    (hf1 : fenceDefine ≠ db) (hf2 : fenceDefine ≠ header) (hf3 : fenceDefine ∉ frags) :
    (madDefine ∈ assembleParts db p name dev header frags ↔
      (dev.isAMD && dev.isGPU) = true) ∧
    (staggeredDefine ∈ assembleParts db p name dev header frags ↔
      (dev.isAMD && dev.isGPU) = true) ∧
    (fenceDefine ∈ assembleParts db p name dev header frags ↔
      (dev.isARM && dev.isGPU) = true) := by
  cases hA : dev.isAMD && dev.isGPU <;> cases hR : dev.isARM && dev.isGPU <;>
    simp [assembleParts, hA, hR, hm1, hm2, hm3, hs1, hs2, hs3, hf1, hf2, hf3,
      madDefine_ne_precision p, madDefine_ne_routine name,
      staggeredDefine_ne_precision p, staggeredDefine_ne_routine name,
      fenceDefine_ne_precision p, fenceDefine_ne_routine name,
      madDefine_ne_staggered, madDefine_ne_fence, staggeredDefine_ne_mad,
      staggeredDefine_ne_fence, fenceDefine_ne_mad, fenceDefine_ne_staggered]

/-- Witness for C8: on an AMD GPU the mad define is emitted and the
fence define is not. -/
theorem quirk_defines_iff_device_predicates_witness :
    madDefine ∈ assembleParts "DB" .Single "Xgemm" ⟨"amd", "", true, false, true⟩
        "HDR" ["frag"] ∧
      fenceDefine ∉ assembleParts "DB" .Single "Xgemm" ⟨"amd", "", true, false, true⟩
        "HDR" ["frag"] := by
  have h := quirk_defines_iff_device_predicates "DB" .Single "Xgemm"
    ⟨"amd", "", true, false, true⟩ "HDR" ["frag"]
    (by decide) (by decide) (by decide) (by decide) (by decide) (by decide)
    (by decide) (by decide) (by decide)
  exact ⟨h.1.mpr rfl, fun hmem => absurd (h.2.2.mp hmem) (by decide)⟩

/-- C10: on a successful cold compile the trace stores the binary
strictly before the program, so after replaying any prefix of the run's
events, the program cache can only hold the request's program if the
binary cache already holds the request's binary. -/
theorem binary_stored_before_program (be : Backend) (st : CacheState) (inp : AcquireInput)
    (ir : Binary) (prog : Program)
    (hp : cacheLookup inp.pkey st.programs = none)
    (hb : cacheLookup inp.bkey st.binaries = none)
    (hg : capabilityCheck inp.precision inp.device.capabilities = none)
    (hc : be.compileToIR inp.source = .ok ir)
    (hbd : be.buildFromIR inp.device ir (resolveOptions inp.envOptions) = .ok prog) :
    (acquire be st inp).trace =
      [.resolveOptions, .gateCheck, .assembleCall, .compileCall, .buildCall,
        .storeBinary inp.bkey ir, .storeProgram inp.pkey prog] ∧
    ∀ n,
      (cacheLookup inp.pkey
        (replay st ((acquire be st inp).trace.take n)).programs).isSome = true →
      (cacheLookup inp.bkey
        (replay st ((acquire be st inp).trace.take n)).binaries).isSome = true := by
  have h : acquire be st inp =
      ⟨.ok prog,
        [.resolveOptions, .gateCheck, .assembleCall, .compileCall, .buildCall,
          .storeBinary inp.bkey ir, .storeProgram inp.pkey prog]⟩ := by
    simp [acquire, hp, hb, coldPath, hg, hc, hbd]
  refine ⟨by rw [h], ?_⟩
  intro n
  rw [h]
  rcases n with _ | _ | _ | _ | _ | _ | _ | n <;>
    simp [replay, applyEvent, hp, hb, cacheLookup_storeIfAbsent_self _ _ _ hb]

/-- Witness for C10: the Scenario A cold compile, with the invariant
checked at the prefix that ends just after the binary store. -/
theorem binary_stored_before_program_witness :
    (acquire demoBackend emptyState demoInput).trace =
      [.resolveOptions, .gateCheck, .assembleCall, .compileCall, .buildCall,
        .storeBinary demoInput.bkey "ir0", .storeProgram demoInput.pkey 8] ∧
    ((cacheLookup demoInput.pkey
        (replay emptyState
          ((acquire demoBackend emptyState demoInput).trace.take 6)).programs).isSome = true →
      (cacheLookup demoInput.bkey
        (replay emptyState
          ((acquire demoBackend emptyState demoInput).trace.take 6)).binaries).isSome = true) := by
  have h := binary_stored_before_program demoBackend emptyState demoInput "ir0" 8
    rfl rfl rfl rfl rfl
  exact ⟨h.1, h.2 6⟩

end CLBlast
